import Mathlib

/-!
Formal model of the Symphonia Auto-DJ engine.

Shallow embedding of the four engine components:
  - `TransitionEngine.ts`  : pure mix-point / transition-plan computation
  - `QueueNavigator.ts`    : setlist cursor and narrative arc mapping
  - `TransportController.ts` (unnamed part_007) : deck state machine and crossfade
  - `AutoDJMasterController.ts` : the polling orchestrator

JS numbers are modelled as rationals (`ℚ`); `undefined`-able fields as
`Option`; JS truthiness of a number (`if (x)`) as `x ≠ 0` on the present
case.  Asynchronous effects (audio `play()` acceptance, track loading)
are modelled by boolean oracles passed to the functions; a thrown
exception is an explicit outcome value.
-/

namespace AutoDJ

/-- Time range `{start, end}` from `types.ts` (`end` is a Lean keyword, so
the field is called `stop`). -/
structure TimeRange where
  start : ℚ
  stop : ℚ
deriving DecidableEq, Repr

/-- Optional `structure` block of a `Track` (`types.ts`). -/
structure TrackStructure where
  intro : Option TimeRange
  drop : Option ℚ
  outro : Option TimeRange
  breakdowns : Option (List TimeRange)
deriving DecidableEq, Repr

/-- The `cuePoints` block of a `Track` (`types.ts`): all four fields are
plain numbers once the block is present. -/
structure CuePoints where
  start : ℚ
  mixIn : ℚ
  mixOut : ℚ
  stop : ℚ
deriving DecidableEq, Repr

/-- Track descriptor (`types.ts`), restricted to the fields the engine
reads.  `structure` is a Lean keyword, so the field is `structure_`. -/
structure Track where
  id : String
  title : String
  bpm : Option ℚ
  duration : Option ℚ
  downloadURL : Option String
  energyCurve : Option (List ℚ)
  structure_ : Option TrackStructure
  cuePoints : Option CuePoints
deriving DecidableEq, Repr

/-- The four performance modes (`types.ts`, `enum AutoDJMode`). -/
inductive AutoDJMode where
  | SMOOTH_CLUB
  | HIGH_ENERGY
  | LATIN_SALSA
  | CINEMATIC_AI
deriving DecidableEq, Repr

/-- Crossfade curve shape (`TransportController.ts`, `CrossfadeCurve`). -/
inductive CrossfadeCurve where
  | linear
  | smooth
  | exponential
deriving DecidableEq, Repr

/-- Energy-matching strictness of a `TransitionProfile`. -/
inductive EnergyMatching where
  | soft
  | hard
deriving DecidableEq, Repr

/-- Per-mode preset (`types.ts`, `TransitionProfile`). -/
structure TransitionProfile where
  crossfadeDuration : ℚ
  phraseAlignment : Bool
  claveDetection : Bool
  energyMatching : EnergyMatching
  arcAwareness : Bool
  transitionCurve : CrossfadeCurve
  phraseBars : ℚ
  tumbaoPreservation : Option Bool := none
  montunoAlignment : Option Bool := none
  emotionalMapping : Option Bool := none
deriving DecidableEq, Repr

/-- Transition plan (`types.ts`, `TransitionPlan`). -/
structure TransitionPlan where
  mixOutPoint : ℚ
  mixInPoint : ℚ
  crossfadeDuration : ℚ
  curve : CrossfadeCurve
  beatAlignment : ℚ
deriving DecidableEq, Repr

/-- The fixed mode → profile table (`TransitionEngine.ts`, `modeProfiles`). -/
def modeProfiles : AutoDJMode → TransitionProfile
  | .SMOOTH_CLUB =>
    { crossfadeDuration := 8, phraseAlignment := true, claveDetection := false
      energyMatching := .soft, arcAwareness := false
      transitionCurve := .smooth, phraseBars := 16 }
  | .HIGH_ENERGY =>
    { crossfadeDuration := 4, phraseAlignment := true, claveDetection := false
      energyMatching := .hard, arcAwareness := false
      transitionCurve := .exponential, phraseBars := 8 }
  | .LATIN_SALSA =>
    { crossfadeDuration := 6, phraseAlignment := true, claveDetection := true
      energyMatching := .hard, arcAwareness := false
      transitionCurve := .smooth, phraseBars := 8
      tumbaoPreservation := some true, montunoAlignment := some true }
  | .CINEMATIC_AI =>
    { crossfadeDuration := 12, phraseAlignment := true, claveDetection := false
      energyMatching := .soft, arcAwareness := true
      transitionCurve := .smooth, phraseBars := 16
      emotionalMapping := some true }

/-- JS `x || d` for an optional number `x`: the default is taken when the
field is absent or its value is falsy (`0`). -/
def jsOrNum (x : Option ℚ) (d : ℚ) : ℚ :=
  match x with
  | some v => if v = 0 then d else v
  | none => d

/-- Default mix-out point (`TransitionEngine.findMixOutPoint`, last two
statements): `const duration = track.duration || 240; return duration * 0.8`. -/
def defaultMixOut (track : Track) : ℚ :=
  jsOrNum track.duration 240 * 0.8

/-- Structure-based fallback of `TransitionEngine.findMixOutPoint`:
`if (track.structure?.outro) return track.structure.outro.start;` then the
80%-duration default. -/
def structureMixOut (track : Track) : ℚ :=
  match track.structure_ with
  | some st =>
    match st.outro with
    | some o => o.start
    | none => defaultMixOut track
  | none => defaultMixOut track

/-- Mix-out point of the outgoing track (`TransitionEngine.findMixOutPoint`).
`if (track.cuePoints?.mixOut)` is a truthiness test: it takes the cue only
when the block is present and `mixOut ≠ 0`. -/
def findMixOutPoint (track : Track) (_profile : TransitionProfile) : ℚ :=
  match track.cuePoints with
  | some cp => if cp.mixOut ≠ 0 then cp.mixOut else structureMixOut track
  | none => structureMixOut track

/-- Structure-based fallback of `TransitionEngine.findMixInPoint`:
`if (track.structure?.intro) return track.structure.intro.end;` else `0`. -/
def structureMixIn (track : Track) : ℚ :=
  match track.structure_ with
  | some st =>
    match st.intro with
    | some i => i.stop
    | none => 0
  | none => 0

/-- Mix-in point of the incoming track (`TransitionEngine.findMixInPoint`);
`if (track.cuePoints?.mixIn)` is again a truthiness test. -/
def findMixInPoint (track : Track) (_profile : TransitionProfile) : ℚ :=
  match track.cuePoints with
  | some cp => if cp.mixIn ≠ 0 then cp.mixIn else structureMixIn track
  | none => structureMixIn track

/-- `TransitionEngine.calculateBeatAlignment`: returns `0` when either BPM
is missing (or falsy), and `0` (reserved placeholder) otherwise. -/
def calculateBeatAlignment (trackA trackB : Track) : ℚ :=
  if jsOrNum trackA.bpm 0 = 0 ∨ jsOrNum trackB.bpm 0 = 0 then 0
  else 0

/-- `TransitionEngine.calculateTransitionPoint`: combines profile, mix
points and beat alignment into a transition plan. -/
def calculateTransitionPoint (trackA trackB : Track) (mode : AutoDJMode) :
    TransitionPlan :=
  let profile := modeProfiles mode
  { mixOutPoint := findMixOutPoint trackA profile
    mixInPoint := findMixInPoint trackB profile
    crossfadeDuration := profile.crossfadeDuration
    curve := profile.transitionCurve
    beatAlignment := calculateBeatAlignment trackA trackB }

/-- Narrative arc position (`QueueNavigator.ts`, `ArcPosition`). -/
inductive ArcPosition where
  | opener
  | buildup
  | peak
  | cooldown
  | closer
deriving DecidableEq, Repr

/-- Mutable state of a `QueueNavigator`: the setlist, the current-index
cursor (a JS number, modelled as `ℤ`), and the optional arc-type label. -/
structure NavState where
  queue : List Track
  currentIndex : ℤ
  setlistArcType : Option String
deriving DecidableEq, Repr

/-- `QueueNavigator.getCurrentTrack`: the track under the cursor when the
cursor is in range, else `null`. -/
def getCurrentTrack (s : NavState) : Option Track :=
  if 0 ≤ s.currentIndex ∧ s.currentIndex < s.queue.length then
    s.queue.get? s.currentIndex.toNat
  else none

/-- `QueueNavigator.getNextTrack`: the track one past the cursor, `null`
past the end. -/
def getNextTrack (s : NavState) : Option Track :=
  if 0 ≤ s.currentIndex + 1 ∧ s.currentIndex + 1 < s.queue.length then
    s.queue.get? (s.currentIndex + 1).toNat
  else none

/-- `QueueNavigator.advanceQueue`: `cursor += 1` and `true` when strictly
below the last index, else `false` and no change. -/
def advanceQueue (s : NavState) : NavState × Bool :=
  if s.currentIndex < (s.queue.length : ℤ) - 1 then
    ({ s with currentIndex := s.currentIndex + 1 }, true)
  else
    (s, false)

/-- `QueueNavigator.hasNext`. -/
def hasNext (s : NavState) : Bool :=
  s.currentIndex < (s.queue.length : ℤ) - 1

/-- `QueueNavigator.isComplete`: cursor at or past the last valid index. -/
def isComplete (s : NavState) : Bool :=
  s.currentIndex ≥ (s.queue.length : ℤ) - 1

/-- `QueueNavigator.setQueue`: replace the queue and reset the cursor. -/
def setQueue (tracks : List Track) (arcType : Option String) : NavState :=
  { queue := tracks, currentIndex := 0, setlistArcType := arcType }

/-- Case-insensitive substring test, modelling JS
`arcType.toLowerCase().includes(pat)` (the pattern is already lower-case
at every call site). -/
def strIncludes (s pat : String) : Bool :=
  decide (pat.toList <:+: s.toList.map Char.toLower)

/-- `QueueNavigator.mapArcTypeToPosition`: fuzzy arc-label matching used
only when a `setlistArcType` is set. -/
def mapArcTypeToPosition (arcType : String) (progress : ℚ) : ArcPosition :=
  if strIncludes arcType "opener" ∨ strIncludes arcType "intro" then
    if progress < 0.5 then .opener else .buildup
  else if strIncludes arcType "peak" ∨ strIncludes arcType "climax" then
    if progress < 0.3 then .buildup else if progress < 0.7 then .peak else .cooldown
  else if strIncludes arcType "closer" ∨ strIncludes arcType "outro" then
    if progress < 0.5 then .cooldown else .closer
  else
    if progress < 0.2 then .opener
    else if progress < 0.4 then .buildup
    else if progress < 0.7 then .peak
    else if progress < 0.9 then .cooldown
    else .closer

/-- `QueueNavigator.getArcPosition`: `progress = (cursor+1)/queueLength`,
mapped through the arc label when present, else through the default bands.
(JS divides by zero to `NaN` on an empty queue; `ℚ` divides to `0` — every
theorem below restricts to a non-empty queue.) -/
def getArcPosition (s : NavState) : ArcPosition :=
  let progress : ℚ := (s.currentIndex + 1 : ℤ) / (s.queue.length : ℚ)
  match s.setlistArcType with
  | some arcType => mapArcTypeToPosition arcType progress
  | none =>
    if progress < 0.15 then .opener
    else if progress < 0.4 then .buildup
    else if progress < 0.7 then .peak
    else if progress < 0.9 then .cooldown
    else .closer

/-- `QueueNavigator.adjustTransitionForArc`: a no-op except in Cinematic AI
mode, where `crossfadeDuration` and `curve` are rewritten per arc position. -/
def adjustTransitionForArc (plan : TransitionPlan) (arcPosition : ArcPosition)
    (mode : AutoDJMode) : TransitionPlan :=
  if mode ≠ AutoDJMode.CINEMATIC_AI then plan
  else
    match arcPosition with
    | .opener => { plan with crossfadeDuration := max plan.crossfadeDuration 10
                             curve := .smooth }
    | .buildup => { plan with crossfadeDuration := plan.crossfadeDuration * 0.9
                              curve := .smooth }
    | .peak => { plan with crossfadeDuration := plan.crossfadeDuration * 0.7
                           curve := .exponential }
    | .cooldown => { plan with crossfadeDuration := plan.crossfadeDuration * 1.1
                               curve := .smooth }
    | .closer => { plan with crossfadeDuration := max plan.crossfadeDuration 12
                             curve := .smooth }

/-- Deck lifecycle state (`TransportController.ts`, `enum DeckState`). -/
inductive DeckState where
  | IDLE
  | LOADING
  | READY
  | PLAYING
  | TRANSITIONING
  | COMPLETE
deriving DecidableEq, Repr

/-- One of the two deck names. -/
inductive Deck where
  | A
  | B
deriving DecidableEq, Repr

/-- Observable state of an `HTMLAudioElement` as the controller uses it. -/
structure AudioElem where
  volume : ℚ
  paused : Bool
  currentTime : ℚ
deriving DecidableEq, Repr

/-- Private fields of a `TransportController`. -/
structure TCState where
  deckAState : DeckState
  deckBState : DeckState
  crossfadeInProgress : Bool
deriving DecidableEq, Repr

/-- `TransportController.setState`. -/
def setState (s : TCState) (deck : Deck) (st : DeckState) : TCState :=
  match deck with
  | .A => { s with deckAState := st }
  | .B => { s with deckBState := st }

/-- `TransportController.getState`. -/
def getState (s : TCState) (deck : Deck) : DeckState :=
  match deck with
  | .A => s.deckAState
  | .B => s.deckBState

/-- `TransportController.applyCurve`: easing function of the fade curve. -/
def applyCurve (progress : ℚ) (curve : CrossfadeCurve) : ℚ :=
  match curve with
  | .linear => progress
  | .smooth =>
    if progress < 0.5 then 2 * progress * progress
    else 1 - (-2 * progress + 2) ^ 2 / 2
  | .exponential => progress ^ 2

/-- The fixed step count of the crossfade loop (`const steps = 60`). -/
def crossfadeSteps : ℕ := 60

/-- Snapshot of the observable state right after one iteration of the
crossfade loop has set both volumes (taken while the loop sleeps). -/
structure FadeSnapshot where
  deckAState : DeckState
  deckBState : DeckState
  fromVolume : ℚ
  toVolume : ℚ
deriving DecidableEq, Repr

/-- How a call to `executeCrossfade` ended: skipped by the mutual-exclusion
guard, aborted because `toAudio.play()` rejected (the error is rethrown
after the `finally` block runs), or run to completion. -/
inductive CrossfadeOutcome where
  | skipped
  | failed
  | completed
deriving DecidableEq, Repr

/-- Result of `executeCrossfade`: final controller state, final states of
the two audio elements, the outcome, and the trace of per-step snapshots
of the fade loop. -/
structure CrossfadeResult where
  tc : TCState
  fromAudio : AudioElem
  toAudio : AudioElem
  outcome : CrossfadeOutcome
  trace : List FadeSnapshot
deriving DecidableEq, Repr

/-- `TransportController.executeCrossfade`.  `playOk` is the oracle for
whether `toAudio.play()` resolves (consulted only when `toAudio` is
paused).  The loop `for i in 0..=steps` is modelled by its trace; the
volumes left by the loop are those of the last iteration, then the
outgoing element is paused and its volume reset to `startVolume`. -/
def executeCrossfade (tc : TCState) (fromDeck toDeck : Deck)
    (fromAudio toAudio : AudioElem) (_duration : ℚ) (curve : CrossfadeCurve)
    (playOk : Bool) : CrossfadeResult :=
  if tc.crossfadeInProgress then
    -- warn and return without touching anything
    { tc := tc, fromAudio := fromAudio, toAudio := toAudio
      outcome := .skipped, trace := [] }
  else
    let tc1 := setState (setState { tc with crossfadeInProgress := true }
      fromDeck .TRANSITIONING) toDeck .TRANSITIONING
    let startVolume := fromAudio.volume
    let targetVolume := toAudio.volume
    if toAudio.paused ∧ playOk = false then
      -- `await toAudio.play()` rejected: catch logs, finally clears the
      -- flag, the error is rethrown; deck states stay TRANSITIONING
      { tc := { tc1 with crossfadeInProgress := false }
        fromAudio := fromAudio, toAudio := toAudio
        outcome := .failed, trace := [] }
    else
      let toAudio1 := if toAudio.paused then { toAudio with paused := false }
        else toAudio
      let trace := (List.range (crossfadeSteps + 1)).map fun (i : ℕ) =>
        let progress : ℚ := (i : ℚ) / (crossfadeSteps : ℚ)
        let fadeProgress := applyCurve progress curve
        { deckAState := tc1.deckAState, deckBState := tc1.deckBState
          fromVolume := startVolume * (1 - fadeProgress)
          toVolume := targetVolume * fadeProgress }
      -- volumes after the loop are those written by its last iteration
      let loopVolumes := trace.foldl
        (fun _ snap => (snap.fromVolume, snap.toVolume))
        (fromAudio.volume, toAudio1.volume)
      -- `fromAudio.pause(); fromAudio.volume = startVolume`
      let fromAudio1 := { fromAudio with paused := true, volume := startVolume }
      let toAudio2 := { toAudio1 with volume := loopVolumes.2 }
      let tc2 := setState (setState tc1 fromDeck .COMPLETE) toDeck .PLAYING
      { tc := { tc2 with crossfadeInProgress := false }
        fromAudio := fromAudio1, toAudio := toAudio2
        outcome := .completed, trace := trace }

/-- Oracles for the awaited/fallible steps inside
`AutoDJMasterController.executeTransition`: whether the cue-point seek,
the crossfade call and the background load of the upcoming track resolve
without throwing. -/
structure MCEffects where
  cueOk : Bool
  crossfadeOk : Bool
  loadOk : Bool
deriving DecidableEq, Repr

/-- Observable result of `AutoDJMasterController.executeTransition`: the
queue-navigator state on exit, how many times `advanceQueue` was invoked,
whether the `catch` branch logged an error, whether the
`onTransition`/`onTrackChange` callbacks fired, and which track (if any)
was loaded into the outgoing deck for the next transition.  The function
itself never rethrows: every error is caught inside it. -/
structure TransitionResult where
  nav : NavState
  advanceCalls : ℕ
  errorLogged : Bool
  notified : Bool
  loadedTrack : Option Track
deriving DecidableEq, Repr

/-- `AutoDJMasterController.executeTransition`: seek the incoming deck to
the mix-in point, crossfade, fire callbacks, advance the queue, then start
loading the track after next into the outgoing deck; the whole sequence
sits in a `try`/`catch` that logs and swallows any error. -/
def executeTransition (nav : NavState) (eff : MCEffects) : TransitionResult :=
  if eff.cueOk = false then
    -- `setCuePoint` threw: caught, logged, nothing else ran
    { nav := nav, advanceCalls := 0, errorLogged := true
      notified := false, loadedTrack := none }
  else if eff.crossfadeOk = false then
    -- `executeCrossfade` rejected: caught, logged, queue untouched
    { nav := nav, advanceCalls := 0, errorLogged := true
      notified := false, loadedTrack := none }
  else
    let nav1 := (advanceQueue nav).1
    match getNextTrack nav1 with
    | some upcoming =>
      if eff.loadOk then
        { nav := nav1, advanceCalls := 1, errorLogged := false
          notified := true, loadedTrack := some upcoming }
      else
        -- `loadNextTrack` rejected after the queue had advanced
        { nav := nav1, advanceCalls := 1, errorLogged := true
          notified := true, loadedTrack := none }
    | none =>
      { nav := nav1, advanceCalls := 1, errorLogged := false
        notified := true, loadedTrack := none }

/-- State of the master controller that a poll tick reads and writes. -/
structure MCState where
  nav : NavState
  isRunning : Bool
  mode : AutoDJMode
deriving DecidableEq, Repr

/-- Input of one poll tick: the status the controller reads off the two
audio elements, plus the effect oracles for a transition if one fires. -/
structure TickInput where
  aPlaying : Bool
  bPlaying : Bool
  aTime : ℚ
  bTime : ℚ
  eff : MCEffects
deriving DecidableEq, Repr

/-- What a single `checkForTransition` tick did. -/
inductive TickOutcome where
  | notRunning
  | noDeckPlaying
  | waitingEnd
  | completedStop
  | noTransition
  | transitioned (r : TransitionResult)
deriving DecidableEq, Repr

/-- `AutoDJMasterController.checkForTransition`: one poll tick.  Picks the
playing deck (A preferred), fetches current/next track; at queue end it
stops and fires `onComplete` when `isComplete()`; otherwise it computes
the arc-adjusted plan and, inside the 1-second trigger window below the
mix-out point, runs `executeTransition`. -/
def checkForTransition (s : MCState) (inp : TickInput) :
    MCState × TickOutcome :=
  if s.isRunning = false then (s, .notRunning)
  else
    let playingDeck : Option Deck :=
      if inp.aPlaying then some .A else if inp.bPlaying then some .B else none
    match playingDeck with
    | none => (s, .noDeckPlaying)
    | some pd =>
      let playingTime := match pd with | .A => inp.aTime | .B => inp.bTime
      match getCurrentTrack s.nav, getNextTrack s.nav with
      | some currentTrack, some nextTrack =>
        let transitionPlan :=
          calculateTransitionPoint currentTrack nextTrack s.mode
        let arcPosition := getArcPosition s.nav
        let adjustedPlan :=
          adjustTransitionForArc transitionPlan arcPosition s.mode
        let timeUntilMixOut := adjustedPlan.mixOutPoint - playingTime
        if timeUntilMixOut ≤ 0 ∧ -1 < timeUntilMixOut then
          let r := executeTransition s.nav inp.eff
          ({ s with nav := r.nav }, .transitioned r)
        else (s, .noTransition)
      | _, _ =>
        -- end of queue: stop and signal completion once `isComplete()`
        if isComplete s.nav then
          ({ s with isRunning := false }, .completedStop)
        else (s, .waitingEnd)

/-- Runs `checkForTransition` over a sequence of tick inputs, collecting
the outcome of every tick (the 500 ms pacing is irrelevant to the logic). -/
def runTicks (s : MCState) : List TickInput → MCState × List TickOutcome
  | [] => (s, [])
  | inp :: rest =>
    let (s1, o) := checkForTransition s inp
    let (s2, os) := runTicks s1 rest
    (s2, o :: os)

/-- Oracles for the awaited steps of `AutoDJMasterController.start`. -/
structure StartEffects where
  loadAOk : Bool
  loadBOk : Bool
  playAOk : Bool
deriving DecidableEq, Repr

/-- Observable result of `AutoDJMasterController.start`. -/
structure StartResult where
  state : MCState
  deckALoaded : Option Track
  deckBLoaded : Option Track
  playbackStartedA : Bool
  monitoring : Bool
  errorLogged : Bool
  threw : Bool
deriving DecidableEq, Repr

/-- `AutoDJMasterController.start`: warn-and-return when already running;
set the queue; error-and-return when it is empty; load deck A, deck B when
a second track exists, start playback on A, then mark running and start
the 500 ms monitor.  A rejected load/play propagates out of `start`
(`threw`). -/
def start (s : MCState) (queue : List Track) (arcType : Option String)
    (eff : StartEffects) : StartResult :=
  if s.isRunning then
    { state := s, deckALoaded := none, deckBLoaded := none
      playbackStartedA := false, monitoring := false
      errorLogged := false, threw := false }
  else
    let nav := setQueue queue arcType
    let track1 := getCurrentTrack nav
    let track2 := getNextTrack nav
    match track1 with
    | none =>
      -- `console.error('No tracks in queue')` and return
      { state := { s with nav := nav }, deckALoaded := none
        deckBLoaded := none, playbackStartedA := false
        monitoring := false, errorLogged := true, threw := false }
    | some t1 =>
      if eff.loadAOk = false then
        { state := { s with nav := nav }, deckALoaded := none
          deckBLoaded := none, playbackStartedA := false
          monitoring := false, errorLogged := false, threw := true }
      else if track2.isSome ∧ eff.loadBOk = false then
        { state := { s with nav := nav }, deckALoaded := some t1
          deckBLoaded := none, playbackStartedA := false
          monitoring := false, errorLogged := false, threw := true }
      else if eff.playAOk = false then
        { state := { s with nav := nav }, deckALoaded := some t1
          deckBLoaded := track2, playbackStartedA := false
          monitoring := false, errorLogged := false, threw := true }
      else
        { state := { s with nav := nav, isRunning := true }
          deckALoaded := some t1, deckBLoaded := track2
          playbackStartedA := true, monitoring := true
          errorLogged := false, threw := false }

/-! Spec-side definitions.  These are written from the specification's
words (not from the code) and are compared with the embedded code in the
refinement theorems below. -/

/-- Spec-side: the mix-out cue of a track, counted as present only when
the `cuePoints` block is supplied and its `mixOut` value is nonzero. -/
def cueMixOut (t : Track) : Option ℚ :=
  t.cuePoints.bind fun cp => if cp.mixOut = 0 then none else some cp.mixOut

/-- Spec-side: the mix-in cue of a track, counted as present only when
the `cuePoints` block is supplied and its `mixIn` value is nonzero. -/
def cueMixIn (t : Track) : Option ℚ :=
  t.cuePoints.bind fun cp => if cp.mixIn = 0 then none else some cp.mixIn

/-- Spec-side: the start of the track's outro, when a `structure` block
with an `outro` range is supplied (a start of `0` still counts). -/
def outroStart (t : Track) : Option ℚ :=
  t.structure_.bind fun st => st.outro.map TimeRange.start

/-- Spec-side: the end of the track's intro, when a `structure` block with
an `intro` range is supplied (an end of `0` still counts). -/
def introEnd (t : Track) : Option ℚ :=
  t.structure_.bind fun st => st.intro.map TimeRange.stop

/-- Spec-side: the duration used by the default mix-out rule, with `240`
substituted when the duration is absent or zero. -/
def effectiveDuration (t : Track) : ℚ :=
  match t.duration with
  | some d => if d = 0 then 240 else d
  | none => 240

/-- Spec-side mix-out selection, as amended: the nonzero mix-out cue if
present; else the outro start if an outro range is present; else
`0.8 ×` the effective duration. -/
def specMixOut (t : Track) : ℚ :=
  (cueMixOut t <|> outroStart t).getD (effectiveDuration t * 0.8)

/-- Spec-side mix-in selection, as amended: the nonzero mix-in cue if
present; else the intro end if an intro range is present; else `0`. -/
def specMixIn (t : Track) : ℚ :=
  (cueMixIn t <|> introEnd t).getD 0

/-- Spec-side arc banding for the label-free case, stated with explicit
interval bounds: `opener` below 0.15, `buildup` on `[0.15, 0.4)`, `peak`
on `[0.4, 0.7)`, `cooldown` on `[0.7, 0.9)`, `closer` at and above 0.9. -/
def arcBandSpec (progress : ℚ) : ArcPosition :=
  if progress < 0.15 then .opener
  else if 0.15 ≤ progress ∧ progress < 0.4 then .buildup
  else if 0.4 ≤ progress ∧ progress < 0.7 then .peak
  else if 0.7 ≤ progress ∧ progress < 0.9 then .cooldown
  else .closer

/-- Spec-side tick outcomes for a running single-track session in which
deck B never plays: every tick before deck A first plays observes no
playing deck; the first tick on which deck A is playing stops the
controller and fires `onComplete`; every later tick finds the controller
stopped. -/
def singleTrackTickSpec : Bool → List TickInput → List TickOutcome
  | _, [] => []
  | false, _ :: rest => .notRunning :: singleTrackTickSpec false rest
  | true, inp :: rest =>
    if inp.aPlaying then .completedStop :: singleTrackTickSpec false rest
    else .noDeckPlaying :: singleTrackTickSpec true rest

/-! Concrete sample values used by witnesses and counterexamples. -/

/-- A track with every optional field absent. -/
def blankTrack : Track :=
  { id := "t1", title := "Track One", bpm := none, duration := none
    downloadURL := none, energyCurve := none
    structure_ := none, cuePoints := none }

/-- A second bare track. -/
def blankTrack2 : Track :=
  { blankTrack with id := "t2", title := "Track Two" }

/-- A track whose `cuePoints` block is supplied with `mixOut = 0` and
`mixIn = 0` and which carries no structure and no duration. -/
def zeroCueTrack : Track :=
  { blankTrack with cuePoints := some { start := 0, mixIn := 0, mixOut := 0, stop := 0 } }

/-- Effect oracle in which every awaited step succeeds. -/
def effAll : MCEffects := ⟨true, true, true⟩

/-- A poll tick on which neither deck is playing. -/
def tickIdle : TickInput := ⟨false, false, 0, 0, effAll⟩

/-- A poll tick on which deck A is playing. -/
def tickPlayingA : TickInput := ⟨true, false, 0, 0, effAll⟩

/-! Theorems. -/

/-- C9: for each of the three fade curves, the easing function satisfies
`fadeProgress(0) = 0` and `fadeProgress(1) = 1` exactly; the smooth curve
satisfies `fadeProgress(0.5) = 0.5` and is symmetric around `0.5`:
`fadeProgress(1 − p) = 1 − fadeProgress(p)` for every `p ∈ [0, 1]`. -/
theorem applyCurve_boundary_and_symmetry :
    (∀ c : CrossfadeCurve, applyCurve 0 c = 0 ∧ applyCurve 1 c = 1) ∧
    applyCurve 0.5 .smooth = 0.5 ∧
    (∀ p : ℚ, 0 ≤ p → p ≤ 1 →
      applyCurve (1 - p) .smooth = 1 - applyCurve p .smooth) := by
  refine ⟨fun c => ?_, by norm_num [applyCurve], fun p hp0 hp1 => ?_⟩
  · cases c <;> constructor <;> norm_num [applyCurve]
  · unfold applyCurve
    split_ifs with h1 h2 h2
    · linarith
    · ring
    · ring
    · have hp : p = 0.5 := by linarith
      subst hp
      norm_num

/-- C9 witness: the symmetry instance at `p = 0.25`. -/
theorem applyCurve_boundary_and_symmetry_witness :
    applyCurve (1 - 0.25) .smooth = 1 - applyCurve 0.25 .smooth :=
  applyCurve_boundary_and_symmetry.2.2 0.25 (by norm_num) (by norm_num)

/-- C8: `advanceQueue` never decreases the cursor; when the cursor is
strictly below the last index it increments by exactly one and returns
`true`, otherwise (including on an empty queue) it returns `false` and
leaves the state unchanged. -/
theorem advanceQueue_monotone :
    ∀ s : NavState,
      s.currentIndex ≤ ((advanceQueue s).1).currentIndex ∧
      (s.currentIndex < (s.queue.length : ℤ) - 1 →
        (advanceQueue s).1.currentIndex = s.currentIndex + 1 ∧
        (advanceQueue s).2 = true) ∧
      ((s.queue.length : ℤ) - 1 ≤ s.currentIndex →
        advanceQueue s = (s, false)) := by
  intro s
  unfold advanceQueue
  split_ifs with h
  · exact ⟨by simp, fun _ => ⟨rfl, rfl⟩, fun h' => absurd h (by omega)⟩
  · exact ⟨le_refl _, fun h' => absurd h' h, fun _ => rfl⟩

/-- C8 witness: on a two-track queue at cursor 0 the cursor advances to 1
with result `true`; on an empty queue at cursor 0 the call is a no-op
returning `false`. -/
theorem advanceQueue_monotone_witness :
    ((advanceQueue ⟨[blankTrack, blankTrack2], 0, none⟩).1.currentIndex = 0 + 1 ∧
      (advanceQueue ⟨[blankTrack, blankTrack2], 0, none⟩).2 = true) ∧
    advanceQueue ⟨[], 0, none⟩ = (⟨[], 0, none⟩, false) :=
  ⟨(advanceQueue_monotone ⟨[blankTrack, blankTrack2], 0, none⟩).2.1 (by decide),
   (advanceQueue_monotone ⟨[], 0, none⟩).2.2 (by decide)⟩

/-- C6: `adjustTransitionForArc` returns the plan unchanged for every mode
other than Cinematic AI; in Cinematic AI mode it keeps `mixOutPoint`,
`mixInPoint` and `beatAlignment` and maps `(crossfadeDuration, curve)` to
`(max base 10, smooth)` for opener, `(base × 0.9, smooth)` for buildup,
`(base × 0.7, exponential)` for peak, `(base × 1.1, smooth)` for cooldown
and `(max base 12, smooth)` for closer. -/
theorem adjustTransitionForArc_characterization :
    ∀ (plan : TransitionPlan) (arc : ArcPosition),
      (∀ mode : AutoDJMode, mode ≠ .CINEMATIC_AI →
        adjustTransitionForArc plan arc mode = plan) ∧
      ((adjustTransitionForArc plan arc .CINEMATIC_AI).mixOutPoint =
          plan.mixOutPoint ∧
        (adjustTransitionForArc plan arc .CINEMATIC_AI).mixInPoint =
          plan.mixInPoint ∧
        (adjustTransitionForArc plan arc .CINEMATIC_AI).beatAlignment =
          plan.beatAlignment ∧
        (adjustTransitionForArc plan arc .CINEMATIC_AI).crossfadeDuration =
          (match arc with
            | .opener => max plan.crossfadeDuration 10
            | .buildup => plan.crossfadeDuration * 0.9
            | .peak => plan.crossfadeDuration * 0.7
            | .cooldown => plan.crossfadeDuration * 1.1
            | .closer => max plan.crossfadeDuration 12) ∧
        (adjustTransitionForArc plan arc .CINEMATIC_AI).curve =
          (match arc with
            | .peak => CrossfadeCurve.exponential
            | _ => CrossfadeCurve.smooth)) := by
  intro plan arc
  constructor
  · intro mode hmode
    unfold adjustTransitionForArc
    rw [if_pos hmode]
  · cases arc <;>
      simp [adjustTransitionForArc]

/-- C6 witness: Smooth Club mode leaves a sample plan unchanged. -/
theorem adjustTransitionForArc_characterization_witness :
    adjustTransitionForArc
      ⟨160, 0, 8, .smooth, 0⟩ .peak .SMOOTH_CLUB = ⟨160, 0, 8, .smooth, 0⟩ :=
  (adjustTransitionForArc_characterization ⟨160, 0, 8, .smooth, 0⟩ .peak).1
    .SMOOTH_CLUB (by decide)

/-- Helper: the code's cascading default bands agree with the spec-side
interval bands at every progress value. -/
theorem defaultBands_eq_arcBandSpec (p : ℚ) :
    (if p < 0.15 then ArcPosition.opener
      else if p < 0.4 then ArcPosition.buildup
      else if p < 0.7 then ArcPosition.peak
      else if p < 0.9 then ArcPosition.cooldown
      else ArcPosition.closer) = arcBandSpec p := by
  unfold arcBandSpec
  by_cases h1 : p < 0.15
  · simp [h1]
  · by_cases h2 : p < 0.4
    · simp [h1, h2, not_lt.mp h1]
    · by_cases h3 : p < 0.7
      · simp [h1, h2, h3, not_lt.mp h2]
      · by_cases h4 : p < 0.9
        · simp [h1, h2, h3, h4, not_lt.mp h3]
        · simp [h1, h2, h3, h4]

/-- C7: with no arc label and an in-range cursor on a non-empty queue,
`getArcPosition` computes `progress = (cursor + 1) / queueLength` and maps
it through the bands `opener` below 0.15, `buildup` on `[0.15, 0.4)`,
`peak` on `[0.4, 0.7)`, `cooldown` on `[0.7, 0.9)` and `closer` at and
above 0.9 (so cursor 8 of a length-10 queue, progress exactly 0.9, falls
in `closer`). -/
theorem getArcPosition_default_bands :
    ∀ s : NavState, s.setlistArcType = none → s.queue ≠ [] →
      0 ≤ s.currentIndex → s.currentIndex < (s.queue.length : ℤ) →
      getArcPosition s =
        arcBandSpec (((s.currentIndex + 1 : ℤ) : ℚ) / (s.queue.length : ℚ)) := by
  intro s hlabel _hq _hc0 _hc1
  simp only [getArcPosition, hlabel]
  exact defaultBands_eq_arcBandSpec _

/-- C7 witness: cursor 8 of a length-10 queue has progress exactly 0.9 and
lands in `closer`. -/
theorem getArcPosition_default_bands_witness :
    getArcPosition ⟨List.replicate 10 blankTrack, 8, none⟩ =
      arcBandSpec (((8 + 1 : ℤ) : ℚ) / ((List.replicate 10 blankTrack).length : ℚ)) ∧
    arcBandSpec (((8 + 1 : ℤ) : ℚ) / ((List.replicate 10 blankTrack).length : ℚ)) =
      ArcPosition.closer :=
  ⟨getArcPosition_default_bands ⟨List.replicate 10 blankTrack, 8, none⟩ rfl
      (by decide) (by decide) (by decide),
    by norm_num [arcBandSpec]⟩

/-- C1 counterexample: a track whose `cuePoints` block is supplied with
`mixOut = 0` (and no structure and no duration).  The claim states the
mix-out point must then be `0`; the code's truthiness test skips the zero
cue and falls through to `0.8 × 240 = 192`. -/
theorem calculateTransitionPoint_zero_cue_cex :
    (calculateTransitionPoint zeroCueTrack blankTrack2 .LATIN_SALSA).mixOutPoint
        = 192 ∧
    ¬ (calculateTransitionPoint zeroCueTrack blankTrack2 .LATIN_SALSA).mixOutPoint
        = 0 := by
  constructor <;>
    norm_num [calculateTransitionPoint, findMixOutPoint, structureMixOut,
      defaultMixOut, jsOrNum, zeroCueTrack, blankTrack]

/-- C1 as amended: `mixOutPoint` is `trackA.cuePoints.mixOut` when that
block is present with a nonzero `mixOut`, else `trackA.structure.outro.start`
when an outro range is present (even one starting at 0), else `0.8 ×`
the duration with 240 substituted when the duration is absent or zero;
`mixInPoint` is `trackB.cuePoints.mixIn` when present and nonzero, else
`trackB.structure.intro.end` when an intro range is present, else `0`. -/
theorem calculateTransitionPoint_mix_points :
    ∀ (trackA trackB : Track) (mode : AutoDJMode),
      (calculateTransitionPoint trackA trackB mode).mixOutPoint
          = specMixOut trackA ∧
      (calculateTransitionPoint trackA trackB mode).mixInPoint
          = specMixIn trackB := by
  intro trackA trackB mode
  constructor
  · simp only [calculateTransitionPoint]
    unfold findMixOutPoint specMixOut cueMixOut outroStart structureMixOut
      defaultMixOut effectiveDuration jsOrNum
    cases trackA.cuePoints with
    | none =>
      cases trackA.structure_ with
      | none => cases trackA.duration <;> simp
      | some st => cases h : st.outro <;> cases trackA.duration <;> simp [h]
    | some cp =>
      by_cases hz : cp.mixOut = 0 <;>
        cases trackA.structure_ with
        | none => cases trackA.duration <;> simp [hz]
        | some st => cases h : st.outro <;> cases trackA.duration <;> simp [h, hz]
  · simp only [calculateTransitionPoint]
    unfold findMixInPoint specMixIn cueMixIn introEnd structureMixIn
    cases trackB.cuePoints with
    | none =>
      cases trackB.structure_ with
      | none => simp
      | some st => cases h : st.intro <;> simp [h]
    | some cp =>
      by_cases hz : cp.mixIn = 0 <;>
        cases trackB.structure_ with
        | none => simp [hz]
        | some st => cases h : st.intro <;> simp [h, hz]

/-- C3: invoking `executeCrossfade` while a crossfade is already in
progress returns immediately with only a warning: the controller state
(both deck states and the flag) is unchanged, neither audio element's
volume is touched, and no fade loop is started (empty trace). -/
theorem executeCrossfade_mutual_exclusion :
    ∀ (tc : TCState) (fromDeck toDeck : Deck) (fromAudio toAudio : AudioElem)
      (duration : ℚ) (curve : CrossfadeCurve) (playOk : Bool),
      tc.crossfadeInProgress = true →
      executeCrossfade tc fromDeck toDeck fromAudio toAudio duration curve playOk
        = { tc := tc, fromAudio := fromAudio, toAudio := toAudio
            outcome := .skipped, trace := [] } := by
  intro tc fd td fa ta dur c p h
  unfold executeCrossfade
  rw [if_pos h]

/-- C3 witness: a call under a set in-progress flag is a no-op. -/
theorem executeCrossfade_mutual_exclusion_witness :
    executeCrossfade ⟨.TRANSITIONING, .TRANSITIONING, true⟩ .A .B
        ⟨1, false, 100⟩ ⟨0, true, 0⟩ 8 .smooth true
      = { tc := ⟨.TRANSITIONING, .TRANSITIONING, true⟩
          fromAudio := ⟨1, false, 100⟩, toAudio := ⟨0, true, 0⟩
          outcome := .skipped, trace := [] } :=
  executeCrossfade_mutual_exclusion ⟨.TRANSITIONING, .TRANSITIONING, true⟩
    .A .B ⟨1, false, 100⟩ ⟨0, true, 0⟩ 8 .smooth true rfl

/-- C10: every invocation that passes the mutual-exclusion check leaves
the crossfade-in-progress flag cleared on return, on the throwing path
(incoming `play()` rejected) as well as on completion — the `finally`
block runs on every exit. -/
theorem executeCrossfade_flag_cleared :
    ∀ (tc : TCState) (fromDeck toDeck : Deck) (fromAudio toAudio : AudioElem)
      (duration : ℚ) (curve : CrossfadeCurve) (playOk : Bool),
      tc.crossfadeInProgress = false →
      (executeCrossfade tc fromDeck toDeck fromAudio toAudio duration curve
          playOk).tc.crossfadeInProgress = false := by
  intro tc fd td fa ta dur c p h
  unfold executeCrossfade
  rw [if_neg (by simp [h])]
  split_ifs <;> rfl

/-- C10 witness: the flag is cleared even when the incoming `play()`
rejects and the crossfade throws. -/
theorem executeCrossfade_flag_cleared_witness :
    (executeCrossfade ⟨.PLAYING, .READY, false⟩ .A .B
        ⟨1, false, 100⟩ ⟨1, true, 0⟩ 8 .smooth false).tc.crossfadeInProgress
      = false :=
  executeCrossfade_flag_cleared ⟨.PLAYING, .READY, false⟩ .A .B
    ⟨1, false, 100⟩ ⟨1, true, 0⟩ 8 .smooth false rfl

/-- C4: in the master controller's transition sequence, `advanceQueue` is
called at most once, and exactly once precisely when the cue-point seek
and the crossfade both resolved without error; when either throws, the
error is caught and logged and the queue cursor is unchanged. -/
theorem executeTransition_advances_once :
    ∀ (nav : NavState) (eff : MCEffects),
      (executeTransition nav eff).advanceCalls ≤ 1 ∧
      ((executeTransition nav eff).advanceCalls = 1 ↔
        eff.cueOk = true ∧ eff.crossfadeOk = true) ∧
      (eff.cueOk = false ∨ eff.crossfadeOk = false →
        (executeTransition nav eff).nav = nav ∧
        (executeTransition nav eff).errorLogged = true) := by
  intro nav eff
  unfold executeTransition
  cases hcue : eff.cueOk with
  | false => simp
  | true =>
    cases hcf : eff.crossfadeOk with
    | false => simp
    | true =>
      cases hnt : getNextTrack (advanceQueue nav).1 with
      | none => simp [hnt]
      | some upcoming => cases hld : eff.loadOk <;> simp [hnt, hld]

/-- C4 witness: a crossfade rejection leaves the cursor where it was and
logs the error. -/
theorem executeTransition_advances_once_witness :
    (executeTransition ⟨[blankTrack, blankTrack2], 0, none⟩
        ⟨true, false, true⟩).nav = ⟨[blankTrack, blankTrack2], 0, none⟩ ∧
    (executeTransition ⟨[blankTrack, blankTrack2], 0, none⟩
        ⟨true, false, true⟩).errorLogged = true :=
  (executeTransition_advances_once ⟨[blankTrack, blankTrack2], 0, none⟩
    ⟨true, false, true⟩).2.2 (Or.inr rfl)

/-- Helper: a fold that ignores its accumulator keeps the image of the
last element (the value a repeated assignment loop leaves behind). -/
theorem foldl_assign_last {α β : Type} (g : α → β) (init : β) :
    ∀ l : List α, l.foldl (fun _ a => g a) init = (l.getLast?).elim init g := by
  intro l
  induction l generalizing init with
  | nil => rfl
  | cons a t ih =>
    cases t with
    | nil => rfl
    | cons b t' =>
      rw [List.foldl_cons, ih, List.getLast?_cons_cons]
      obtain ⟨x, hx⟩ := Option.isSome_iff_exists.mp
        (List.getLast?_isSome.mpr (List.cons_ne_nil b t'))
      rw [hx]
      rfl

/-- Helper: every easing curve reaches exactly `1` at progress `1`. -/
theorem applyCurve_at_one (c : CrossfadeCurve) : applyCurve 1 c = 1 := by
  cases c <;> norm_num [applyCurve]

/-- Helper: the volumes left behind by the crossfade loop are those of its
last iteration, at progress `steps / steps = 1`. -/
theorem fadeTrace_foldl (dA dB : DeckState) (sv tv : ℚ) (c : CrossfadeCurve)
    (i0 : ℚ × ℚ) :
    (((List.range (crossfadeSteps + 1)).map fun (i : ℕ) =>
        ({ deckAState := dA, deckBState := dB
           fromVolume := sv * (1 - applyCurve ((i : ℚ) / (crossfadeSteps : ℚ)) c)
           toVolume := tv * applyCurve ((i : ℚ) / (crossfadeSteps : ℚ)) c }
          : FadeSnapshot)).foldl
        (fun _ snap => (snap.fromVolume, snap.toVolume)) i0)
      = (sv * (1 - applyCurve 1 c), tv * applyCurve 1 c) := by
  have hlast : (List.range (crossfadeSteps + 1)).getLast? = some crossfadeSteps := by
    decide
  refine (foldl_assign_last _ i0 _).trans ?_
  rw [List.getLast?_map, hlast]
  norm_num [crossfadeSteps, Option.elim]

/-- C2: a crossfade that passes the mutual-exclusion check and throws no
error (the incoming `play()` resolves whenever it is needed) keeps both
decks in `Transitioning` throughout the fade loop; afterwards the from
deck is `Complete` with its audio paused and its volume restored to the
pre-fade level, and the to deck is `Playing`, unpaused, at the full target
volume. -/
theorem executeCrossfade_completes :
    ∀ (tc : TCState) (fromDeck toDeck : Deck) (fromAudio toAudio : AudioElem)
      (duration : ℚ) (curve : CrossfadeCurve) (playOk : Bool),
      tc.crossfadeInProgress = false →
      fromDeck ≠ toDeck →
      (toAudio.paused = true → playOk = true) →
      (executeCrossfade tc fromDeck toDeck fromAudio toAudio duration curve
          playOk).outcome = .completed ∧
      (∀ snap ∈ (executeCrossfade tc fromDeck toDeck fromAudio toAudio
          duration curve playOk).trace,
        snap.deckAState = .TRANSITIONING ∧ snap.deckBState = .TRANSITIONING) ∧
      getState (executeCrossfade tc fromDeck toDeck fromAudio toAudio duration
          curve playOk).tc fromDeck = .COMPLETE ∧
      getState (executeCrossfade tc fromDeck toDeck fromAudio toAudio duration
          curve playOk).tc toDeck = .PLAYING ∧
      (executeCrossfade tc fromDeck toDeck fromAudio toAudio duration curve
          playOk).fromAudio.paused = true ∧
      (executeCrossfade tc fromDeck toDeck fromAudio toAudio duration curve
          playOk).fromAudio.volume = fromAudio.volume ∧
      (executeCrossfade tc fromDeck toDeck fromAudio toAudio duration curve
          playOk).toAudio.paused = false ∧
      (executeCrossfade tc fromDeck toDeck fromAudio toAudio duration curve
          playOk).toAudio.volume = toAudio.volume := by
  intro tc fd td fa ta dur c p hflag hne hplay
  have hcond : ¬(ta.paused = true ∧ p = false) := by
    rintro ⟨h1, h2⟩
    rw [hplay h1] at h2
    cases h2
  have hr :
      executeCrossfade tc fd td fa ta dur c p =
        { tc := { setState (setState
              (setState (setState { tc with crossfadeInProgress := true }
                fd .TRANSITIONING) td .TRANSITIONING) fd .COMPLETE)
              td .PLAYING with crossfadeInProgress := false }
          fromAudio := { fa with paused := true, volume := fa.volume }
          toAudio := { (if ta.paused then { ta with paused := false } else ta)
              with volume := ta.volume * applyCurve 1 c }
          outcome := .completed
          trace := (List.range (crossfadeSteps + 1)).map fun (i : ℕ) =>
            { deckAState := (setState (setState
                  { tc with crossfadeInProgress := true }
                  fd .TRANSITIONING) td .TRANSITIONING).deckAState
              deckBState := (setState (setState
                  { tc with crossfadeInProgress := true }
                  fd .TRANSITIONING) td .TRANSITIONING).deckBState
              fromVolume :=
                fa.volume * (1 - applyCurve ((i : ℚ) / (crossfadeSteps : ℚ)) c)
              toVolume :=
                ta.volume * applyCurve ((i : ℚ) / (crossfadeSteps : ℚ)) c } } := by
    unfold executeCrossfade
    rw [if_neg (by simp [hflag]), if_neg hcond]
    simp only [fadeTrace_foldl]
    try rfl
  rw [hr]
  cases fd <;> cases td
  · exact absurd rfl hne
  · refine ⟨rfl, ?_, rfl, rfl, rfl, rfl, ?_, ?_⟩
    · intro snap hsnap
      obtain ⟨i, _, rfl⟩ := List.mem_map.mp hsnap
      exact ⟨rfl, rfl⟩
    · by_cases hp : ta.paused <;> simp [hp]
    · simp [applyCurve_at_one]
  · refine ⟨rfl, ?_, rfl, rfl, rfl, rfl, ?_, ?_⟩
    · intro snap hsnap
      obtain ⟨i, _, rfl⟩ := List.mem_map.mp hsnap
      exact ⟨rfl, rfl⟩
    · by_cases hp : ta.paused <;> simp [hp]
    · simp [applyCurve_at_one]
  · exact absurd rfl hne

/-- C2 witness: a concrete crossfade from a playing deck A at volume 1 to
a paused deck B ends Complete/paused/restored on A and Playing at the
full target volume on B. -/
theorem executeCrossfade_completes_witness :
    (executeCrossfade ⟨.PLAYING, .READY, false⟩ .A .B ⟨1, false, 100⟩
        ⟨1, true, 0⟩ 8 .smooth true).outcome = .completed ∧
    getState (executeCrossfade ⟨.PLAYING, .READY, false⟩ .A .B ⟨1, false, 100⟩
        ⟨1, true, 0⟩ 8 .smooth true).tc .A = .COMPLETE ∧
    getState (executeCrossfade ⟨.PLAYING, .READY, false⟩ .A .B ⟨1, false, 100⟩
        ⟨1, true, 0⟩ 8 .smooth true).tc .B = .PLAYING ∧
    (executeCrossfade ⟨.PLAYING, .READY, false⟩ .A .B ⟨1, false, 100⟩
        ⟨1, true, 0⟩ 8 .smooth true).fromAudio.paused = true ∧
    (executeCrossfade ⟨.PLAYING, .READY, false⟩ .A .B ⟨1, false, 100⟩
        ⟨1, true, 0⟩ 8 .smooth true).fromAudio.volume = 1 ∧
    (executeCrossfade ⟨.PLAYING, .READY, false⟩ .A .B ⟨1, false, 100⟩
        ⟨1, true, 0⟩ 8 .smooth true).toAudio.volume = 1 := by
  obtain ⟨h1, _h2, h3, h4, h5, h6, _h7, h8⟩ :=
    executeCrossfade_completes ⟨.PLAYING, .READY, false⟩ .A .B ⟨1, false, 100⟩
      ⟨1, true, 0⟩ 8 .smooth true rfl (by decide) (fun _ => rfl)
  exact ⟨h1, h3, h4, h5, h6, h8⟩

/-- Helper: a stopped controller does nothing on any sequence of ticks. -/
theorem runTicks_stopped (s : MCState) (h : s.isRunning = false) :
    ∀ inputs, runTicks s inputs =
      (s, inputs.map fun _ => TickOutcome.notRunning) := by
  intro inputs
  induction inputs with
  | nil => rfl
  | cons inp rest ih =>
    simp only [runTicks, checkForTransition, if_pos h, ih, List.map_cons]

/-- Helper: one tick of a running single-track session either stops with
completion (some deck playing) or observes no playing deck. -/
theorem checkForTransition_single (t : Track) (arc : Option String)
    (mode : AutoDJMode) (inp : TickInput) :
    checkForTransition ⟨⟨[t], 0, arc⟩, true, mode⟩ inp =
      (if inp.aPlaying || inp.bPlaying
        then (⟨⟨[t], 0, arc⟩, false, mode⟩, TickOutcome.completedStop)
        else (⟨⟨[t], 0, arc⟩, true, mode⟩, TickOutcome.noDeckPlaying)) := by
  have hcur : getCurrentTrack ⟨[t], 0, arc⟩ = some t := by
    norm_num [getCurrentTrack]
  have hnext : getNextTrack ⟨[t], 0, arc⟩ = none := by
    norm_num [getNextTrack]
  have hcomp : isComplete ⟨[t], 0, arc⟩ = true := by
    norm_num [isComplete]
  cases ha : inp.aPlaying <;> cases hb : inp.bPlaying <;>
    simp [checkForTransition, ha, hb, hcur, hnext, hcomp]

/-- Helper: after the stop, the spec-side tick outcomes are all
`notRunning`. -/
theorem singleTrackTickSpec_stopped (inputs : List TickInput) :
    singleTrackTickSpec false inputs =
      inputs.map fun _ => TickOutcome.notRunning := by
  induction inputs with
  | nil => rfl
  | cons inp rest ih => simp [singleTrackTickSpec, ih]

/-- Helper: full run of a single-track session over any tick sequence on
which deck B never plays. -/
theorem runTicks_single_eq (t : Track) (arc : Option String)
    (mode : AutoDJMode) :
    ∀ inputs : List TickInput, (∀ inp ∈ inputs, inp.bPlaying = false) →
      runTicks ⟨⟨[t], 0, arc⟩, true, mode⟩ inputs =
        (⟨⟨[t], 0, arc⟩,
            if inputs.any (fun i => i.aPlaying) then false else true, mode⟩,
          singleTrackTickSpec true inputs) := by
  intro inputs
  induction inputs with
  | nil => intro _; rfl
  | cons inp rest ih =>
    intro hb
    have hbi : inp.bPlaying = false := hb inp (List.mem_cons_self inp rest)
    have hbr : ∀ i ∈ rest, i.bPlaying = false :=
      fun i hi => hb i (List.mem_cons_of_mem inp hi)
    cases ha : inp.aPlaying with
    | true =>
      simp only [runTicks, checkForTransition_single, ha, Bool.true_or,
        if_pos]
      rw [runTicks_stopped _ rfl rest]
      simp [singleTrackTickSpec, ha, singleTrackTickSpec_stopped]
    | false =>
      simp [runTicks, checkForTransition_single, ha, hbi, ih hbr,
        singleTrackTickSpec, List.any_cons]

/-- Helper: the spec-side outcomes never contain a transition. -/
theorem singleTrackTickSpec_no_transition (running : Bool) :
    ∀ inputs : List TickInput,
      ∀ o ∈ singleTrackTickSpec running inputs,
        ∀ r : TransitionResult, o ≠ TickOutcome.transitioned r := by
  intro inputs
  induction inputs generalizing running with
  | nil => intro o ho; cases running <;> cases ho
  | cons inp rest ih =>
    intro o ho r
    cases running with
    | false =>
      rcases List.mem_cons.mp ho with h | h
      · subst h; intro hcontra; cases hcontra
      · exact ih false o h r
    | true =>
      by_cases hp : inp.aPlaying = true
      · rw [singleTrackTickSpec, if_pos hp] at ho
        rcases List.mem_cons.mp ho with h | h
        · subst h; intro hcontra; cases hcontra
        · exact ih false o h r
      · rw [singleTrackTickSpec, if_neg hp] at ho
        rcases List.mem_cons.mp ho with h | h
        · subst h; intro hcontra; cases hcontra
        · exact ih true o h r

/-- Helper: the spec-side outcomes contain `completedStop` exactly once
when some tick has deck A playing, and never otherwise. -/
theorem singleTrackTickSpec_count :
    ∀ inputs : List TickInput,
      (singleTrackTickSpec false inputs).countP
          (fun o => decide (o = TickOutcome.completedStop)) = 0 ∧
      (singleTrackTickSpec true inputs).countP
          (fun o => decide (o = TickOutcome.completedStop)) =
        if inputs.any (fun i => i.aPlaying) then 1 else 0 := by
  intro inputs
  induction inputs with
  | nil => constructor <;> rfl
  | cons inp rest ih =>
    constructor
    · simp [singleTrackTickSpec, List.countP_cons, ih.1]
    · cases ha : inp.aPlaying with
      | true =>
        simp [singleTrackTickSpec, ha, List.countP_cons, ih.1]
      | false =>
        simp [singleTrackTickSpec, ha, List.countP_cons, ih.2, List.any_cons]

/-- C5: `start()` on an empty queue logs an error and does not begin — no
deck is loaded, playback does not start, no poll is scheduled and the
controller stays inactive.  With exactly one track (and successful load
and play), only deck A is loaded and started and monitoring begins; on
the subsequent poll ticks (deck B never plays, as it was never started)
no tick ever runs a transition (`executeCrossfade` is never invoked), the
outcomes follow `singleTrackTickSpec` — the first tick with deck A
playing stops the controller and fires `onComplete` — and `onComplete`
fires exactly once when deck A is ever observed playing, never otherwise. -/
theorem start_empty_and_single :
    ∀ (s : MCState) (arcType : Option String) (eff : StartEffects),
      s.isRunning = false →
      (start s [] arcType eff =
        { state := { s with nav := ⟨[], 0, arcType⟩ }, deckALoaded := none
          deckBLoaded := none, playbackStartedA := false
          monitoring := false, errorLogged := true, threw := false }) ∧
      (∀ t : Track, eff.loadAOk = true → eff.playAOk = true →
        start s [t] arcType eff =
          { state := { s with nav := ⟨[t], 0, arcType⟩, isRunning := true }
            deckALoaded := some t, deckBLoaded := none
            playbackStartedA := true, monitoring := true
            errorLogged := false, threw := false }) ∧
      (∀ (t : Track) (mode : AutoDJMode) (inputs : List TickInput),
        (∀ inp ∈ inputs, inp.bPlaying = false) →
        (runTicks ⟨⟨[t], 0, arcType⟩, true, mode⟩ inputs).2
            = singleTrackTickSpec true inputs ∧
        (∀ o ∈ (runTicks ⟨⟨[t], 0, arcType⟩, true, mode⟩ inputs).2,
          ∀ r : TransitionResult, o ≠ TickOutcome.transitioned r) ∧
        (inputs.any (fun i => i.aPlaying) = true →
          (runTicks ⟨⟨[t], 0, arcType⟩, true, mode⟩ inputs).1.isRunning
            = false) ∧
        ((runTicks ⟨⟨[t], 0, arcType⟩, true, mode⟩ inputs).2.countP
            (fun o => decide (o = TickOutcome.completedStop))
          = if inputs.any (fun i => i.aPlaying) then 1 else 0)) := by
  intro s arcType eff hrun
  refine ⟨?_, ?_, ?_⟩
  · have hcur : getCurrentTrack ⟨[], 0, arcType⟩ = none := by
      norm_num [getCurrentTrack]
    simp [start, hrun, setQueue, hcur]
  · intro t hla hpa
    have hcur : getCurrentTrack ⟨[t], 0, arcType⟩ = some t := by
      norm_num [getCurrentTrack]
    have hnext : getNextTrack ⟨[t], 0, arcType⟩ = none := by
      norm_num [getNextTrack]
    simp [start, hrun, setQueue, hcur, hnext, hla, hpa]
  · intro t mode inputs hb
    have h := runTicks_single_eq t arcType mode inputs hb
    refine ⟨by rw [h], ?_, ?_, ?_⟩
    · rw [h]
      exact singleTrackTickSpec_no_transition true inputs
    · intro hany
      rw [h]
      simp [hany]
    · rw [h]
      exact (singleTrackTickSpec_count inputs).2

/-- C5 witness: an empty queue refuses to start; a one-track queue loads
and plays only deck A; the tick sequence idle-then-A-playing yields one
`completedStop` on the second tick and nothing after. -/
theorem start_empty_and_single_witness :
    (start ⟨⟨[], 0, none⟩, false, .LATIN_SALSA⟩ [] none ⟨true, true, true⟩ =
      { state := ⟨⟨[], 0, none⟩, false, .LATIN_SALSA⟩, deckALoaded := none
        deckBLoaded := none, playbackStartedA := false
        monitoring := false, errorLogged := true, threw := false }) ∧
    (start ⟨⟨[], 0, none⟩, false, .LATIN_SALSA⟩ [blankTrack] none
        ⟨true, true, true⟩ =
      { state := ⟨⟨[blankTrack], 0, none⟩, true, .LATIN_SALSA⟩
        deckALoaded := some blankTrack, deckBLoaded := none
        playbackStartedA := true, monitoring := true
        errorLogged := false, threw := false }) ∧
    (runTicks ⟨⟨[blankTrack], 0, none⟩, true, .LATIN_SALSA⟩
        [tickIdle, tickPlayingA, tickIdle]).2
      = [TickOutcome.noDeckPlaying, TickOutcome.completedStop,
          TickOutcome.notRunning] ∧
    (runTicks ⟨⟨[blankTrack], 0, none⟩, true, .LATIN_SALSA⟩
        [tickIdle, tickPlayingA, tickIdle]).2.countP
        (fun o => decide (o = TickOutcome.completedStop)) = 1 := by
  obtain ⟨h1, h2, h3⟩ :=
    start_empty_and_single ⟨⟨[], 0, none⟩, false, .LATIN_SALSA⟩ none
      ⟨true, true, true⟩ rfl
  obtain ⟨h4, _h5, _h6, h7⟩ :=
    h3 blankTrack .LATIN_SALSA [tickIdle, tickPlayingA, tickIdle]
      (by intro inp hinp; fin_cases hinp <;> rfl)
  refine ⟨h1, h2 blankTrack rfl rfl, ?_, ?_⟩
  · rw [h4]; rfl
  · rw [h7]; rfl

end AutoDJ
